import Mathlib

/-!
# Verification of the Video-Upload-Automation pipeline (Czz3)

A shallow embedding of the discovery-to-delivery pipeline of the
repository: target-set derivation, the per-item upload fan-out and
outcome aggregation of `UploadManager._upload_file`
(`src/Czz3/core/upload_manager.py`), the status-marker discipline of
`StatusTracker` (`src/Czz3/core/status_tracker.py`), the debounce /
stability logic of the folder watcher
(`src/Czz3/core/folder_watcher.py`), and the metadata-recheck loop of
`MainTab.schedule_recheck` (`src/Czz3/gui/main_tab.py`).

Python strings are `String` (character-level operations work on
`List Char` so that closed instances evaluate), sizes and counters are
`Nat`, file-system and in-memory sets are lists or `Finset`s, and the
mutable abort flag read at the top of each loop iteration is a function
from the iteration index to `Bool`.  Adapter calls are abstracted by
their observable outcome (returned `True`, returned `False`, or raised),
exactly the three cases the aggregation loop distinguishes.
-/

namespace VideoUpload

/-- The five persisted marker states listed in
`StatusTracker.status_types` (`status_tracker.py`, lines 15-21). -/
inductive StatusType
  | UPLOADING
  | COMPLETED
  | PARTIAL
  | ERROR
  | CANCELLED
  deriving DecidableEq, Repr

/-- Observable outcome of one `_upload_to_platform` call as seen by the
loop in `_upload_file` (`upload_manager.py`, lines 207-222): the call
returned `True`, returned `False`, or raised an exception (which the
surrounding `try`/`except` turns into a logged failure). -/
inductive TargetResult
  | success
  | failure
  | raised
  deriving DecidableEq, Repr

/-- `UploadManager._get_target_platforms_for_folder` (`upload_manager.py`,
lines 86-104): derive the declared target platforms from the folder type
and the filename.  The `"001"`-substring test is Python's
`"001" in filename`, membership of `"001"` as an infix of the filename's
character sequence. -/
def get_target_platforms_for_folder (folder_type filename : String) : List String :=
  if folder_type = "cloudflare" then
    ["cloudflare", "facebook"]
      ++ (if "001".toList <:+: filename.toList then ["youtube"] else [])
  else if folder_type = "pinterest" then
    ["pinterest"]
  else if folder_type = "youtube_shorts" then
    ["youtube_shorts"]
  else
    []

/-- `FileManager._determine_platforms` (`file_manager.py`, lines 106-126):
the second, independently written copy of target derivation, with the
argument order of the source (`filename` first). -/
def determine_platforms (filename folder_type : String) : List String :=
  if folder_type = "cloudflare" then
    ["cloudflare", "facebook"]
      ++ (if "001".toList <:+: filename.toList then ["youtube"] else [])
  else if folder_type = "pinterest" then
    ["pinterest"]
  else if folder_type = "youtube_shorts" then
    ["youtube_shorts"]
  else
    []

/-- The platform-name aliasing inside `UploadManager._get_target_platforms`
(`upload_manager.py`, lines 246-250): `youtube_shorts` is looked up under
the `youtube` credentials key. -/
def platform_key (platform : String) : String :=
  if platform = "youtube_shorts" then "youtube" else platform

/-- `UploadManager._get_target_platforms` (`upload_manager.py`, lines
242-255): the item's declared platforms filtered against the enabled
platform keys — the *effective target set*. -/
def get_target_platforms (enabled filePlatforms : List String) : List String :=
  filePlatforms.filter (fun p => platform_key p ∈ enabled)

/-- The per-target loop of `_upload_file` (`upload_manager.py`, lines
207-222).  `abortSeen i` is the value of `self.abort_requested` read at
the top of iteration `i` (the flag is set once by `abort_all` and never
cleared); `outcome p` is the observable result of `_upload_to_platform`
for platform `p`; an abort observed at the top of an iteration breaks out
of the loop, so the remaining targets are not attempted and not counted.
Returns `(success_count, total_platforms)`. -/
def upload_loop (abortSeen : Nat → Bool) (outcome : String → TargetResult) :
    List String → Nat → Nat × Nat
  | [], _ => (0, 0)
  | p :: ps, i =>
    if abortSeen i then (0, 0)
    else
      let rest := upload_loop abortSeen outcome ps (i + 1)
      ((if outcome p = .success then 1 else 0) + rest.1, 1 + rest.2)

/-- `UploadManager._upload_file` (`upload_manager.py`, lines 186-240) on
one dequeued item, abstracting a `create_status_file` call to the pair of
marker state and message.  The trace of marker writes is returned
together with the method's boolean result.  Control flow follows the
source: the `UPLOADING` marker is written first (line 192), then the
effective target set is computed (line 198); an empty set logs and
returns `False` (lines 200-202); otherwise the per-target loop runs and
the aggregate marker is chosen from `success_count` and
`total_platforms` (lines 224-236). -/
def upload_file (abortSeen : Nat → Bool) (outcome : String → TargetResult)
    (enabled filePlatforms : List String) : List (StatusType × String) × Bool :=
  let uploadingWrite : List (StatusType × String) := [(StatusType.UPLOADING, "")]
  let target_platforms := get_target_platforms enabled filePlatforms
  if target_platforms.isEmpty then
    (uploadingWrite, false)
  else
    let counts := upload_loop abortSeen outcome target_platforms 0
    let success_count := counts.1
    let total_platforms := counts.2
    if success_count = total_platforms then
      (uploadingWrite
          ++ [(StatusType.COMPLETED,
                "Successfully uploaded to " ++ toString success_count ++ " platforms")],
        true)
    else if success_count > 0 then
      (uploadingWrite
          ++ [(StatusType.PARTIAL,
                "Uploaded to " ++ toString success_count ++ "/"
                  ++ toString total_platforms ++ " platforms")],
        false)
    else
      (uploadingWrite ++ [(StatusType.ERROR, "Failed to upload to any platform")], false)

/-- The state of the terminal marker persisted for the item: the marker
state of the last `create_status_file` call of the run. -/
def terminal_state (writes : List (StatusType × String)) : Option StatusType :=
  writes.getLast?.map Prod.fst

/-- The key list of `StatusTracker.status_types` (`status_tracker.py`,
lines 15-21), in dictionary order. -/
def status_types : List StatusType :=
  [.UPLOADING, .COMPLETED, .PARTIAL, .ERROR, .CANCELLED]

/-- `StatusTracker.cleanup_status_files` (`status_tracker.py`, lines
139-155): for each of the five states, unlink the marker file
`{base}_{state}.txt` when it exists.  The markers beside one source file
are modelled as the finite set of states whose marker file is present. -/
def cleanup_status_files (markers : Finset StatusType) : Finset StatusType :=
  status_types.foldl (fun acc t => acc.erase t) markers

/-- `StatusTracker.create_status_file` (`status_tracker.py`, lines 23-58):
clean up every existing status marker for the path first, then write the
new `{base}_{status}.txt` marker. -/
def create_status_file (status : StatusType) (markers : Finset StatusType) :
    Finset StatusType :=
  insert status (cleanup_status_files markers)

/-- A Status-Tracker operation on one path's marker set: `setState`
(`create_status_file`) or `clear` (`cleanup_status_files`). -/
inductive TrackerOp
  | setState (status : StatusType)
  | clear

/-- Effect of one tracker operation on the marker set of one path. -/
def apply_op (markers : Finset StatusType) : TrackerOp → Finset StatusType
  | .setState status => create_status_file status markers
  | .clear => cleanup_status_files markers

/-- Effect of a sequence of tracker operations on one path's markers. -/
def apply_ops (markers : Finset StatusType) (ops : List TrackerOp) :
    Finset StatusType :=
  ops.foldl apply_op markers

/-- `VideoFileHandler.valid_extensions` default (`folder_watcher.py`,
line 17). -/
def valid_extensions : List String := [".mov", ".mp4", ".avi", ".mkv", ".m4v", ".wmv"]

/-- Python's `file_path.lower().endswith(ext)` filter at the top of
`handle_file_event` (`folder_watcher.py`, line 34), on the path's
character sequence. -/
def has_video_extension (file_path : String) : Bool :=
  valid_extensions.any
    (fun ext => ext.toList.isSuffixOf (file_path.toList.map Char.toLower))

/-- The in-memory state of `VideoFileHandler` (`folder_watcher.py`, lines
18-19): the `processing_files` set and the set of paths holding an armed
debounce timer (`file_timers` keys; at most one timer per path, since
arming cancels the previous one). -/
structure WatcherState where
  processing_files : List String
  file_timers : List String
  deriving DecidableEq, Repr

/-- `VideoFileHandler.handle_file_event` (`folder_watcher.py`, lines
31-48): drop events for non-video extensions and for paths already in
`processing_files`; otherwise cancel any armed timer for the path and arm
a fresh 3-second debounce timer.  Returns the new state and whether a
timer was armed. -/
def handle_file_event (s : WatcherState) (file_path : String) :
    WatcherState × Bool :=
  if !has_video_extension file_path then (s, false)
  else if file_path ∈ s.processing_files then (s, false)
  else
    ({ s with file_timers := file_path :: s.file_timers.erase file_path }, true)

/-- `VideoFileHandler.is_file_complete` (`folder_watcher.py`, lines
64-75): two `os.path.getsize` probes taken one second apart; `none`
models an `OSError`/`FileNotFoundError`, which the handler treats as not
complete.  Complete means equal sizes and a positive size. -/
def is_file_complete (size1 size2 : Option Nat) : Bool :=
  match size1, size2 with
  | some s1, some s2 => s1 == s2 && decide (0 < s1)
  | _, _ => false

/-- `VideoFileHandler.process_stable_file` (`folder_watcher.py`, lines
50-62): the armed timer's callback.  Remove the timer entry, probe
stability, and when the file is complete add the path to
`processing_files` and invoke the enqueue callback.  Returns the new
state and the list of callback invocations (none or one). -/
def process_stable_file (s : WatcherState) (file_path : String)
    (size1 size2 : Option Nat) : WatcherState × List String :=
  let afterTimer : WatcherState :=
    { s with file_timers := s.file_timers.erase file_path }
  if is_file_complete size1 size2 then
    ({ afterTimer with processing_files := file_path :: afterTimer.processing_files },
      [file_path])
  else
    (afterTimer, [])

/-- One discovery-engine happening: a creation/modification notification
(`on_created`/`on_modified`), or the expiry of an armed debounce timer
together with the two size probes its callback will observe. -/
inductive WatchStep
  | ev (file_path : String)
  | fire (file_path : String) (size1 size2 : Option Nat)

/-- Effect of one happening on the watcher state, with the list of
enqueue-callback invocations it produces.  A `fire` for a path with no
armed timer does nothing: `handle_file_event` cancels the superseded
timer, so a cancelled timer never delivers its callback. -/
def watch_step (s : WatcherState) : WatchStep → WatcherState × List String
  | .ev p => ((handle_file_event s p).1, [])
  | .fire p size1 size2 =>
    if p ∈ s.file_timers then process_stable_file s p size1 size2
    else (s, [])

/-- A sequence of happenings, accumulating the enqueue-callback
invocations in order. -/
def watch_run (s : WatcherState) : List WatchStep → WatcherState × List String
  | [] => (s, [])
  | step :: rest =>
    let out := watch_step s step
    let rest' := watch_run out.1 rest
    (rest'.1, out.2 ++ rest'.2)

/-- Everything on disk and in memory that the Discovery Engine could
consult when a notification arrives: the status markers beside each path
and the watcher's in-memory state. -/
structure DiscoveryWorld where
  markers : List (String × StatusType)
  watcher : WatcherState
  deriving DecidableEq, Repr

/-- What actually runs on a creation/modification notification
(`on_created`/`on_modified` delegate to `handle_file_event`,
`folder_watcher.py` lines 21-29).  The marker files are neither read nor
written by the handler. -/
def observe (w : DiscoveryWorld) (file_path : String) : DiscoveryWorld × Bool :=
  let out := handle_file_event w.watcher file_path
  ({ w with watcher := out.1 }, out.2)

/-- `MainTab.schedule_recheck` bound (`main_tab.py`, line 362):
`max_attempts = 10`. -/
def max_attempts : Nat := 10

/-- The fixed recheck delay (`main_tab.py`, line 379):
`threading.Timer(300, recheck)` — 300 seconds, five minutes. -/
def recheck_delay_seconds : Nat := 300

/-- `MainTab.schedule_recheck` (`main_tab.py`, lines 360-379) together
with the `recheck` timer callback it arms.  `metadataReady k` is the
result of `validate_file_requirements` at the k-th armed recheck.
Returns the number of rechecks performed and whether the file was handed
to `process_single_file` (and hence enqueued).  Reaching `max_attempts`
only logs a warning; no status marker is written and no work item is
produced. -/
def schedule_recheck (metadataReady : Nat → Bool) (attempts : Nat) : Nat × Bool :=
  if attempts ≥ max_attempts then (0, false)
  else if metadataReady attempts then (1, true)
  else
    let rest := schedule_recheck metadataReady (attempts + 1)
    (rest.1 + 1, rest.2)
termination_by max_attempts - attempts
decreasing_by
  simp only [max_attempts] at *
  omega

end VideoUpload

namespace VideoUpload

/-! ## Helper lemmas -/

/-- With the abort flag never observed, the per-target loop counts one
attempt per effective target and one success per `success` outcome. -/
lemma upload_loop_no_abort (outcome : String → TargetResult) (l : List String)
    (i : Nat) :
    upload_loop (fun _ => false) outcome l i =
      (l.countP (fun p => outcome p = TargetResult.success), l.length) := by
  induction l generalizing i with
  | nil => simp [upload_loop]
  | cons p ps ih =>
    simp only [upload_loop, ih, List.countP_cons, List.length_cons]
    by_cases h : outcome p = TargetResult.success <;> simp [h] <;> omega

/-- The terminal marker of a two-write trace is the second write. -/
lemma terminal_state_pair (x y : StatusType × String) :
    terminal_state ([x] ++ [y]) = some y.1 := rfl

/-- For a non-empty effective target set, the run ends with `COMPLETED`,
`PARTIAL` or `ERROR` according to the loop's counts. -/
lemma upload_file_terminal (abortSeen : Nat → Bool) (outcome : String → TargetResult)
    (enabled filePlatforms : List String)
    (hne : (get_target_platforms enabled filePlatforms).isEmpty = false) :
    terminal_state (upload_file abortSeen outcome enabled filePlatforms).1 =
      some (if (upload_loop abortSeen outcome (get_target_platforms enabled filePlatforms) 0).1
                = (upload_loop abortSeen outcome (get_target_platforms enabled filePlatforms) 0).2
            then StatusType.COMPLETED
            else if (upload_loop abortSeen outcome (get_target_platforms enabled filePlatforms) 0).1 > 0
            then StatusType.PARTIAL
            else StatusType.ERROR) := by
  simp only [upload_file, hne, Bool.false_eq_true, if_false]
  split
  · exact terminal_state_pair _ _
  · split
    · exact terminal_state_pair _ _
    · exact terminal_state_pair _ _

/-- Cleaning up removes every one of the five markers: the result is
always the empty marker set. -/
lemma cleanup_status_files_eq_empty (markers : Finset StatusType) :
    cleanup_status_files markers = ∅ := by
  ext x
  cases x <;> simp [cleanup_status_files, status_types, Finset.mem_erase]

/-- Writing a marker leaves exactly the one just-written marker. -/
lemma create_status_file_eq (status : StatusType) (markers : Finset StatusType) :
    create_status_file status markers = {status} := by
  rw [create_status_file, cleanup_status_files_eq_empty]
  rfl

/-- Running a concatenated trace: states thread through, outputs append. -/
lemma watch_run_append (s : WatcherState) (l1 l2 : List WatchStep) :
    watch_run s (l1 ++ l2)
      = ((watch_run (watch_run s l1).1 l2).1,
          (watch_run s l1).2 ++ (watch_run (watch_run s l1).1 l2).2) := by
  induction l1 generalizing s with
  | nil => simp [watch_run]
  | cons a l ih => simp [watch_run, ih]

/-- A burst of events for a fresh video path: nothing is emitted, the
processing set is unchanged, and the path ends with an armed timer. -/
lemma replicate_ev_props (p : String) (hext : has_video_extension p = true) :
    ∀ (n : Nat), 0 < n → ∀ (s : WatcherState), p ∉ s.processing_files →
      (watch_run s (List.replicate n (WatchStep.ev p))).2 = []
      ∧ (watch_run s (List.replicate n (WatchStep.ev p))).1.processing_files
          = s.processing_files
      ∧ p ∈ (watch_run s (List.replicate n (WatchStep.ev p))).1.file_timers := by
  intro n
  induction n with
  | zero => intro h; omega
  | succ n ih =>
    intro _ s hp
    have hstep : watch_step s (WatchStep.ev p)
        = ({ s with file_timers := p :: s.file_timers.erase p }, []) := by
      simp [watch_step, handle_file_event, hext, hp]
    rcases Nat.eq_zero_or_pos n with hn | hn
    · subst hn
      simp [List.replicate, watch_run, hstep]
    · have hrec := ih hn { s with file_timers := p :: s.file_timers.erase p } hp
      simp only [List.replicate_succ, watch_run, hstep, List.nil_append]
      exact hrec

/-! ## Claim theorems -/

/-- C1: for a work item whose effective target set is non-empty and all
of whose targets are attempted (the abort flag is never observed), the
terminal marker persisted by `_upload_file` is `COMPLETED` iff every
attempted target succeeded, `PARTIAL` iff at least one succeeded and at
least one did not, and `ERROR` iff none succeeded — where an adapter call
that raised counts as not succeeded. -/
theorem upload_terminal_aggregate (outcome : String → TargetResult)
    (enabled filePlatforms : List String)
    (hne : get_target_platforms enabled filePlatforms ≠ []) :
    ((terminal_state (upload_file (fun _ => false) outcome enabled filePlatforms).1
        = some StatusType.COMPLETED)
      ↔ ∀ p ∈ get_target_platforms enabled filePlatforms,
          outcome p = TargetResult.success)
    ∧ ((terminal_state (upload_file (fun _ => false) outcome enabled filePlatforms).1
        = some StatusType.PARTIAL)
      ↔ ((∃ p ∈ get_target_platforms enabled filePlatforms,
            outcome p = TargetResult.success)
          ∧ ∃ p ∈ get_target_platforms enabled filePlatforms,
              outcome p ≠ TargetResult.success))
    ∧ ((terminal_state (upload_file (fun _ => false) outcome enabled filePlatforms).1
        = some StatusType.ERROR)
      ↔ ∀ p ∈ get_target_platforms enabled filePlatforms,
          outcome p ≠ TargetResult.success) := by
  obtain ⟨a, ha⟩ := List.exists_mem_of_ne_nil _ hne
  have hisE : (get_target_platforms enabled filePlatforms).isEmpty = false := by
    simp [hne]
  have hterm := upload_file_terminal (fun _ => false) outcome enabled filePlatforms hisE
  rw [upload_loop_no_abort] at hterm
  set tps := get_target_platforms enabled filePlatforms with htps
  have hall : (tps.countP (fun p => outcome p = TargetResult.success) = tps.length)
      ↔ ∀ p ∈ tps, outcome p = TargetResult.success := by
    simp [List.countP_eq_length]
  have hpos : (0 < tps.countP (fun p => outcome p = TargetResult.success))
      ↔ ∃ p ∈ tps, outcome p = TargetResult.success := by
    simp [List.countP_pos_iff]
  have hzero : (tps.countP (fun p => outcome p = TargetResult.success) = 0)
      ↔ ∀ p ∈ tps, outcome p ≠ TargetResult.success := by
    simp [List.countP_eq_zero]
  rw [hterm]
  split_ifs with h1 h2
  · refine ⟨iff_of_true rfl (hall.mp h1), iff_of_false (by decide) ?_,
      iff_of_false (by decide) ?_⟩
    · rintro ⟨-, p, hp, hps⟩
      exact hps (hall.mp h1 p hp)
    · intro h
      exact h a ha (hall.mp h1 a ha)
  · refine ⟨iff_of_false (by decide) (fun h => h1 (hall.mpr h)),
      iff_of_true rfl ⟨hpos.mp h2, ?_⟩, iff_of_false (by decide) ?_⟩
    · by_contra hno
      push_neg at hno
      exact h1 (hall.mpr hno)
    · intro h
      obtain ⟨p, hp, hps⟩ := hpos.mp h2
      exact h p hp hps
  · have h0 : tps.countP (fun p => outcome p = TargetResult.success) = 0 := by omega
    refine ⟨iff_of_false (by decide) (fun h => h1 (hall.mpr h)),
      iff_of_false (by decide) ?_, iff_of_true rfl (hzero.mp h0)⟩
    rintro ⟨⟨p, hp, hps⟩, -⟩
    exact (hzero.mp h0 p hp) hps

/-- C1 witness: one enabled target that succeeds ends in `COMPLETED`. -/
theorem upload_terminal_aggregate_witness :
    terminal_state (upload_file (fun _ => false) (fun _ => TargetResult.success)
        ["pinterest"] ["pinterest"]).1 = some StatusType.COMPLETED := by
  have h := upload_terminal_aggregate (fun _ => TargetResult.success)
    ["pinterest"] ["pinterest"] (by decide)
  exact h.1.mpr (fun p _ => rfl)

/-- C2 counterexample: an item whose effective target set is empty (here:
a pinterest item while no platform is enabled) nevertheless gets a status
marker — the `UPLOADING` marker is written on line 192, before the
effective target set is computed on line 198, so the claim that no marker
of any kind is written is false. -/
theorem empty_targets_still_writes_uploading_marker :
    get_target_platforms [] ["pinterest"] = []
    ∧ (upload_file (fun _ => false) (fun _ => TargetResult.success) [] ["pinterest"]).1.map
        Prod.fst = [StatusType.UPLOADING] := by decide

/-- C2 (amended): an item with an empty effective target set is skipped
with only a log entry and no terminal marker — but only after the
`UPLOADING` marker has already been written unconditionally, so its
marker trace is exactly the dangling `UPLOADING` write. -/
theorem empty_targets_skip_after_uploading_marker (abortSeen : Nat → Bool)
    (outcome : String → TargetResult) (enabled filePlatforms : List String)
    (h : get_target_platforms enabled filePlatforms = []) :
    upload_file abortSeen outcome enabled filePlatforms
      = ([(StatusType.UPLOADING, "")], false) := by
  simp [upload_file, h]

/-- C2 witness: concrete empty effective target set. -/
theorem empty_targets_skip_after_uploading_marker_witness :
    upload_file (fun _ => false) (fun _ => TargetResult.success) [] ["pinterest"]
      = ([(StatusType.UPLOADING, "")], false) :=
  empty_targets_skip_after_uploading_marker _ _ _ _ (by decide)

/-- C3: when the abort flag is observed before the first target of a
non-empty effective target set, zero targets are attempted, and
`_upload_file` falls into the `success_count == total_platforms` branch
with `0 == 0`: the terminal marker written is `COMPLETED` with message
"Successfully uploaded to 0 platforms", not `CANCELLED`.  The exclusion
of unattempted targets from the aggregate does hold (the loop breaks
before incrementing `total_platforms`), but no code path ever writes the
`CANCELLED` state. -/
theorem abort_before_first_target_writes_completed :
    get_target_platforms ["pinterest"] ["pinterest"] = ["pinterest"]
    ∧ (upload_file (fun _ => true) (fun _ => TargetResult.failure)
        ["pinterest"] ["pinterest"]).1
      = [(StatusType.UPLOADING, ""),
          (StatusType.COMPLETED, "Successfully uploaded to 0 platforms")]
    ∧ terminal_state (upload_file (fun _ => true) (fun _ => TargetResult.failure)
        ["pinterest"] ["pinterest"]).1 ≠ some StatusType.CANCELLED := by decide

/-- C5: `create_status_file` always leaves exactly the just-written
marker (it removes all five possible markers first), so "at most one of
the five state-suffixed markers exists" is preserved by every sequence of
`setState` and `clear` operations on a path's marker set. -/
theorem marker_at_most_one_invariant :
    (∀ (status : StatusType) (markers : Finset StatusType),
      create_status_file status markers = {status})
    ∧ ∀ (ops : List TrackerOp) (markers : Finset StatusType),
        markers.card ≤ 1 → (apply_ops markers ops).card ≤ 1 := by
  refine ⟨create_status_file_eq, ?_⟩
  intro ops
  induction ops with
  | nil => intro markers h; simpa [apply_ops] using h
  | cons op rest ih =>
    intro markers h
    have hstep : (apply_op markers op).card ≤ 1 := by
      cases op with
      | setState status => simp [apply_op, create_status_file_eq]
      | clear => simp [apply_op, cleanup_status_files_eq_empty]
    simpa [apply_ops, List.foldl] using ih (apply_op markers op) hstep

/-- C5 witness: a concrete write and a concrete operation sequence. -/
theorem marker_at_most_one_invariant_witness :
    create_status_file StatusType.ERROR {StatusType.UPLOADING} = {StatusType.ERROR}
    ∧ (apply_ops ∅ [TrackerOp.setState StatusType.UPLOADING,
        TrackerOp.setState StatusType.COMPLETED, TrackerOp.clear]).card ≤ 1 :=
  ⟨marker_at_most_one_invariant.1 _ _,
    marker_at_most_one_invariant.2 _ _ (by decide)⟩

/-- C6 counterexample: a creation event for a video path that already
carries a `COMPLETED` marker is not ignored — `handle_file_event` never
consults the status markers (`is_file_processed` has no caller), so the
debounce timer is armed and, once the timer fires with stable probes, the
path is handed to the enqueue callback. -/
theorem terminal_marker_event_not_ignored :
    (observe
        { markers := [("/v/CloudFlare/video.mp4", StatusType.COMPLETED)],
          watcher := { processing_files := [], file_timers := [] } }
        "/v/CloudFlare/video.mp4").2 = true
    ∧ (watch_run
        (observe
          { markers := [("/v/CloudFlare/video.mp4", StatusType.COMPLETED)],
            watcher := { processing_files := [], file_timers := [] } }
          "/v/CloudFlare/video.mp4").1.watcher
        [WatchStep.fire "/v/CloudFlare/video.mp4" (some 5) (some 5)]).2
      = ["/v/CloudFlare/video.mp4"] := by decide

/-- C6 (amended): an event arms a debounce timer iff the path has a
recognized video extension and is not already in the in-memory
`processing_files` set; the on-disk status markers are neither read nor
written by the handler, so a terminal marker does not cause the event to
be ignored. -/
theorem event_filter_ignores_markers (w : DiscoveryWorld) (file_path : String) :
    ((observe w file_path).2 = true
      ↔ (has_video_extension file_path = true
          ∧ file_path ∉ w.watcher.processing_files))
    ∧ (observe w file_path).1.markers = w.markers
    ∧ ∀ markers2 : List (String × StatusType),
        (observe { w with markers := markers2 } file_path).2
          = (observe w file_path).2 := by
  refine ⟨?_, rfl, fun markers2 => rfl⟩
  by_cases hext : has_video_extension file_path
  · by_cases hmem : file_path ∈ w.watcher.processing_files
    · simp [observe, handle_file_event, hext, hmem]
    · simp [observe, handle_file_event, hext, hmem]
  · simp [observe, handle_file_event, hext]

/-- C7: a timer expiry whose two size probes differ emits nothing during
that probing cycle; a burst of n ≥ 1 events for a fresh video path inside
the debounce window followed by the (single surviving) timer expiry with
stable, positive size probes hands the path to the enqueue callback
exactly once. -/
theorem debounce_single_enqueue :
    (∀ (s : WatcherState) (p : String) (size1 size2 : Option Nat),
        size1 ≠ size2 →
        (watch_step s (WatchStep.fire p size1 size2)).2 = [])
    ∧ ∀ (s : WatcherState) (p : String) (n sz : Nat),
        has_video_extension p = true → p ∉ s.processing_files → 0 < n → 0 < sz →
        (watch_run s
            (List.replicate n (WatchStep.ev p)
              ++ [WatchStep.fire p (some sz) (some sz)])).2 = [p] := by
  constructor
  · intro s p size1 size2 hne
    have hcomp : is_file_complete size1 size2 = false := by
      cases size1 with
      | none => rfl
      | some a =>
        cases size2 with
        | none => rfl
        | some b =>
          have hab : a ≠ b := fun h => hne (by rw [h])
          simp [is_file_complete, hab]
    by_cases hmem : p ∈ s.file_timers <;>
      simp [watch_step, hmem, process_stable_file, hcomp]
  · intro s p n sz hext hp hn hsz
    obtain ⟨hout, hproc, htimer⟩ := replicate_ev_props p hext n hn s hp
    rw [watch_run_append, hout]
    have hfire : is_file_complete (some sz) (some sz) = true := by
      simp [is_file_complete, hsz]
    simp [watch_run, watch_step, htimer, process_stable_file, hfire]

/-- C7 witness: differing probes emit nothing; a two-event burst then a
stable expiry emits the path once. -/
theorem debounce_single_enqueue_witness :
    (watch_step { processing_files := [], file_timers := ["/v/a.mp4"] }
        (WatchStep.fire "/v/a.mp4" (some 3) (some 4))).2 = []
    ∧ (watch_run { processing_files := [], file_timers := [] }
        (List.replicate 2 (WatchStep.ev "/v/a.mp4")
          ++ [WatchStep.fire "/v/a.mp4" (some 7) (some 7)])).2 = ["/v/a.mp4"] :=
  ⟨debounce_single_enqueue.1 _ _ _ _ (by decide),
    debounce_single_enqueue.2 _ _ 2 7 (by decide) (by decide) (by decide) (by decide)⟩

/-- C8: target derivation is a total function of folder type and
filename — for the cloudflare folder it yields cloudflare and facebook,
plus youtube exactly when the filename contains the substring "001"; the
pinterest folder yields pinterest and the youtube_shorts folder yields
youtube_shorts, both regardless of filename.  Totality and determinism
over arbitrary filenames hold by construction of the embedding, which is
a total function. -/
theorem target_derivation_characterization (filename : String) :
    get_target_platforms_for_folder "cloudflare" filename
      = (if "001".toList <:+: filename.toList
          then ["cloudflare", "facebook", "youtube"]
          else ["cloudflare", "facebook"])
    ∧ get_target_platforms_for_folder "pinterest" filename = ["pinterest"]
    ∧ get_target_platforms_for_folder "youtube_shorts" filename = ["youtube_shorts"] := by
  refine ⟨?_, by simp [get_target_platforms_for_folder],
    by simp [get_target_platforms_for_folder]⟩
  unfold get_target_platforms_for_folder
  rw [if_pos rfl]
  split <;> rfl

/-- C9: a file whose required sidecar metadata never appears is rechecked
at the fixed 300-second interval exactly `max_attempts` (= 10) times and
then abandoned: no enqueue ever happens for it. -/
theorem metadata_recheck_abandons_after_max (metadataReady : Nat → Bool)
    (h : ∀ k, metadataReady k = false) :
    schedule_recheck metadataReady 0 = (max_attempts, false)
    ∧ max_attempts = 10 ∧ recheck_delay_seconds = 300 := by
  have key : ∀ n j, j + n = max_attempts →
      schedule_recheck metadataReady j = (n, false) := by
    intro n
    induction n with
    | zero =>
      intro j hj
      rw [schedule_recheck]
      simp [show j ≥ max_attempts by omega]
    | succ n ih =>
      intro j hj
      rw [schedule_recheck]
      have hlt : ¬ j ≥ max_attempts := by omega
      simp [hlt, h j, ih (j + 1) (by omega)]
  exact ⟨key max_attempts 0 (by omega), rfl, rfl⟩

/-- C9 witness: metadata that never shows up. -/
theorem metadata_recheck_abandons_after_max_witness :
    schedule_recheck (fun _ => false) 0 = (max_attempts, false)
    ∧ max_attempts = 10 ∧ recheck_delay_seconds = 300 :=
  metadata_recheck_abandons_after_max (fun _ => false) (fun _ => rfl)

/-- C10: the two independently written target-derivation functions,
`FileManager._determine_platforms` and
`UploadManager._get_target_platforms_for_folder`, agree on every
folder-type/filename pair — including unknown folder types, where both
return the empty list. -/
theorem determine_platforms_agrees (folder_type filename : String) :
    determine_platforms filename folder_type
      = get_target_platforms_for_folder folder_type filename := rfl

end VideoUpload
